import Mathlib

/-!
Verification of the SurfSense connector-indexing pipeline
(`app/tasks/connectors_indexing_tasks.py` and
`app/routes/search_source_connectors_routes.py`) against its
natural-language specification.

Shallow embedding conventions:
* Timestamps are `Int` minutes since an epoch; `dayOf t` is the calendar
  day index, modelling Python `datetime.date()`.  `timedelta(days = d)`
  is `d * 1440` minutes.
* All `datetime.now()` calls inside one run are modelled by the single
  run timestamp `now` (the claims under study are insensitive to clock
  drift within a run).
* `strftime` formats are modelled abstractly: a date-only format becomes
  `toString (dayOf t)`, a date-time format becomes `toString t`.
* The database session is modelled by a `DB` value (committed state);
  documents staged with `session.add` and the in-memory watermark write
  become visible only when the final `session.commit()` succeeds;
  a failing commit (`SQLAlchemyError`) rolls everything back.
* External services (Slack client, Notion client, summarizer, embedder,
  chunker) are parameters of the run: each run receives the scripted
  responses the services would give, with `Except` for calls that can
  raise.
-/

/-- Minutes in one day; `timedelta(days = 1)`. -/
def minutesPerDay : Int := 1440

/-- Calendar day of a timestamp, modelling Python `datetime.date()`. -/
def dayOf (t : Int) : Int := t / minutesPerDay

/-- Sync-window computation of `index_slack_messages`
(connectors_indexing_tasks.py lines 57-70): `end_date = now`; if the
connector has a `last_indexed_at` that falls on the same calendar day as
now, go back `timedelta(days=7)`, else start at `last_indexed_at`; with
no watermark start 365 days back. -/
def slackComputeWindow (last_indexed_at : Option Int) (now : Int) : Int × Int :=
  match last_indexed_at with
  | some w => if dayOf w = dayOf now then (now - 7 * minutesPerDay, now) else (w, now)
  | none => (now - 365 * minutesPerDay, now)

/-- Sync-window computation of `index_notion_pages`
(connectors_indexing_tasks.py lines 293-306): identical to the Slack one
except the same-day lookback is `timedelta(days=1)`. -/
def notionComputeWindow (last_indexed_at : Option Int) (now : Int) : Int × Int :=
  match last_indexed_at with
  | some w => if dayOf w = dayOf now then (now - 1 * minutesPerDay, now) else (w, now)
  | none => (now - 365 * minutesPerDay, now)

/-- Date-only string for the Slack API ( `strftime "%Y-%m-%d"` ), modelled
abstractly by the day index. -/
def dateStr (t : Int) : String := toString (dayOf t)

/-- Date-time string for the Notion API ( `strftime "%Y-%m-%dT%H:%M:%SZ"` ),
modelled abstractly by the timestamp. -/
def dateTimeStr (t : Int) : String := toString t

/-- Timestamp string used in document metadata
( `strftime "%Y-%m-%d %H:%M:%S"` ), modelled abstractly. -/
def fmtTime (t : Int) : String := toString t

/-- The closed enumeration of provider kinds
(`SearchSourceConnectorType`). -/
inductive ConnType where
  | serper
  | tavily
  | slack
  | notion
  | github
  | linear
deriving DecidableEq, Repr

/-- A stored `SearchSourceConnector` row: owner, provider kind, opaque
credential mapping, and the nullable `last_indexed_at` watermark. -/
structure Connector where
  id : Int
  user_id : Int
  connector_type : ConnType
  config : List (String × String)
  last_indexed_at : Option Int
deriving DecidableEq, Repr

/-- A metadata value in `document_metadata` (Python dict values are
strings or ints here). -/
inductive MVal where
  | s (v : String)
  | n (v : Nat)
deriving DecidableEq, Repr

/-- A persisted `Document` row together with its `Chunk` children
(chunks are (content, embedding) pairs). -/
structure Document where
  search_space_id : Int
  title : String
  document_type : ConnType
  document_metadata : List (String × MVal)
  content : String
  embedding : List Int
  chunks : List (String × List Int)
deriving DecidableEq, Repr

/-- The committed database state visible to a run: connector rows and
document rows. -/
structure DB where
  connectors : List Connector
  documents : List Document
deriving DecidableEq, Repr

/-- Set the watermark of the connector row with the given id
(`connector.last_indexed_at = datetime.now()` on the fetched row). -/
def setWatermark (l : List Connector) (cid : Int) (now : Int) : List Connector :=
  l.map fun c => if c.id = cid then { c with last_indexed_at := some now } else c

section WindowClaims

/-- C6: with a null (never-synced) watermark, both sync-window planners
yield exactly the window from 365 days before now up to now. -/
theorem c6_never_synced_window (now : Int) :
    slackComputeWindow none now = (now - 365 * minutesPerDay, now) ∧
    notionComputeWindow none now = (now - 365 * minutesPerDay, now) :=
  ⟨rfl, rfl⟩

/-- C3 counterexample: the claim says the same-day window start is never
before the actual watermark, but with watermark 09:00 of day 1000 and now
10:00 of day 1000 both planners start strictly before the watermark. -/
theorem c3_counterexample :
    dayOf 1440540 = dayOf 1440600 ∧
    (slackComputeWindow (some 1440540) 1440600).1 < 1440540 ∧
    (notionComputeWindow (some 1440540) 1440600).1 < 1440540 := by
  refine ⟨by decide, ?_, ?_⟩ <;> decide

/-- C3 (amended): for a watermark on the same calendar day as now, the
planned window starts at now minus the lookback grace (7 days for Slack,
1 day for Notion) and ends at now; that start is always strictly
*before* the watermark (the grace period deliberately re-covers it). -/
theorem c3_same_day_window (w now : Int) (h : dayOf w = dayOf now) :
    slackComputeWindow (some w) now = (now - 7 * minutesPerDay, now) ∧
    notionComputeWindow (some w) now = (now - 1 * minutesPerDay, now) ∧
    (slackComputeWindow (some w) now).1 < w ∧
    (notionComputeWindow (some w) now).1 < w := by
  have hlt7 : now - 7 * minutesPerDay < w := by
    simp only [dayOf, minutesPerDay] at h ⊢
    omega
  have hlt1 : now - minutesPerDay < w := by
    simp only [dayOf, minutesPerDay] at h ⊢
    omega
  refine ⟨?_, ?_, ?_, ?_⟩
  · simp [slackComputeWindow, h]
  · simp [notionComputeWindow, h]
  · simp [slackComputeWindow, h, hlt7]
  · simp [notionComputeWindow, h, hlt1]

/-- C3 witness: the amended theorem applied at a concrete same-day
watermark and now. -/
theorem c3_same_day_window_witness :
    slackComputeWindow (some 1440540) 1440600 = (1440600 - 7 * minutesPerDay, 1440600) ∧
    notionComputeWindow (some 1440540) 1440600 = (1440600 - 1 * minutesPerDay, 1440600) ∧
    (slackComputeWindow (some 1440540) 1440600).1 < 1440540 ∧
    (notionComputeWindow (some 1440540) 1440600).1 < 1440540 :=
  c3_same_day_window 1440540 1440600 (by decide)

end WindowClaims

/-- Python `needle in haystack` substring test, used on the text of a
`SlackApiError`. -/
def strContains (haystack needle : String) : Bool :=
  (haystack.splitOn needle).length != 1

/-- The pluggable capabilities configured on `config`: the summarization
chain, the embedding model and the chunker.  Each may raise (modelled by
`Except`); the chunker yields (chunk text, chunk embedding) pairs. -/
structure Caps where
  summarize : String → Except String String
  embed : String → Except String (List Int)
  chunkText : String → Except String (List (String × List Int))

/-- The canonical `<DOCUMENT>` envelope built from `metadata_sections`
(connectors_indexing_tasks.py lines 156-183 and 398-422): tag lines and
section contents joined with a newline. -/
def buildDocumentString (metaLines : List String) (content : String) : String :=
  String.intercalate "\n"
    (["<DOCUMENT>", "<METADATA>"] ++ metaLines ++
      ["</METADATA>", "<CONTENT>", "FORMAT: markdown", "TEXT_START", content,
        "TEXT_END", "</CONTENT>", "</DOCUMENT>"])

/-- One Slack message as returned by `format_message(msg, include_user_info=True)`
(fields read at lines 135 and 149-151). -/
structure SlackMsg where
  subtype : Option String
  user_name : String
  datetime : String
  text : String
deriving DecidableEq, Repr

/-- Result of `conversations_info` for a channel: either the channel
record (its `is_private` / `is_member` flags) or a raised `SlackApiError`
with the given text. -/
inductive InfoResult where
  | ok (is_private is_member : Bool)
  | apiErr (msg : String)
deriving DecidableEq, Repr

/-- The scripted behaviour of the Slack API for one run:
`get_all_channels` (name to id mapping, or a raised exception) and, per
channel id and date-range strings, `conversations_info` and
`get_history_by_date_range` (which returns a (messages, error) pair). -/
structure SlackEnv where
  channelsResult : Except String (List (String × String))
  info : String → InfoResult
  history : String → String → String → List SlackMsg × Option String

/-- The message subtypes dropped at lines 134-136. -/
def isNoiseSubtype (m : SlackMsg) : Bool :=
  m.subtype == some "bot_message" || m.subtype == some "channel_join" ||
    m.subtype == some "channel_leave"

/-- The markdown section for one formatted message (line 153). -/
def slackMsgSection (m : SlackMsg) : String :=
  "## " ++ m.user_name ++ " (" ++ m.datetime ++ ")\n\n" ++ m.text ++ "\n\n---\n\n"

/-- Outcome of processing one container inside the per-container loop:
a staged document, a recorded skip with its reason string, or a silent
`continue` (no document and no skip entry). -/
inductive ChanOutcome where
  | doc (d : Document)
  | skip (entry : String)
  | silent
deriving DecidableEq, Repr

/-- The body of the per-channel loop of `index_slack_messages`
(connectors_indexing_tasks.py lines 90-226): membership check, history
fetch, noise filtering, markdown assembly, envelope, summarization,
embedding, chunking, and the staged `Document`; every failure is
converted to a skip entry naming the channel and a reason. -/
def processSlackChannel (caps : Caps) (env : SlackEnv) (now : Int)
    (startStr endStr : String) (search_space_id : Int)
    (channel_name channel_id : String) : ChanOutcome :=
  match env.info channel_id with
  | InfoResult.apiErr m =>
    if strContains m "not_in_channel" || strContains m "channel_not_found" then
      ChanOutcome.skip (channel_name ++ " (access error)")
    else
      ChanOutcome.skip (channel_name ++ " (Slack API error)")
  | InfoResult.ok is_private is_member =>
    if is_private && !is_member then
      ChanOutcome.skip (channel_name ++ " (private, bot not a member)")
    else
      match env.history channel_id startStr endStr with
      | (_, some e) => ChanOutcome.skip (channel_name ++ " (error: " ++ e ++ ")")
      | (messages, none) =>
        if messages.isEmpty then ChanOutcome.silent
        else
          let formatted_messages := messages.filter fun m => !isNoiseSubtype m
          if formatted_messages.isEmpty then ChanOutcome.silent
          else
            let channel_content := "# Slack Channel: " ++ channel_name ++ "\n\n" ++
              String.join (formatted_messages.map slackMsgSection)
            let combined_document_string := buildDocumentString
              ["CHANNEL_NAME: " ++ channel_name,
               "CHANNEL_ID: " ++ channel_id,
               "START_DATE: " ++ startStr,
               "END_DATE: " ++ endStr,
               "MESSAGE_COUNT: " ++ toString formatted_messages.length,
               "INDEXED_AT: " ++ fmtTime now]
              channel_content
            match caps.summarize combined_document_string with
            | Except.error _ => ChanOutcome.skip (channel_name ++ " (processing error)")
            | Except.ok summary_content =>
              match caps.embed summary_content with
              | Except.error _ => ChanOutcome.skip (channel_name ++ " (processing error)")
              | Except.ok summary_embedding =>
                match caps.chunkText channel_content with
                | Except.error _ => ChanOutcome.skip (channel_name ++ " (processing error)")
                | Except.ok chunks =>
                  ChanOutcome.doc
                    { search_space_id := search_space_id
                      title := "Slack - " ++ channel_name
                      document_type := ConnType.slack
                      document_metadata :=
                        [("channel_name", MVal.s channel_name),
                         ("channel_id", MVal.s channel_id),
                         ("start_date", MVal.s startStr),
                         ("end_date", MVal.s endStr),
                         ("message_count", MVal.n formatted_messages.length),
                         ("indexed_at", MVal.s (fmtTime now))]
                      content := summary_content
                      embedding := summary_embedding
                      chunks := chunks }

/-- The per-container loop: process each container in order, collecting
staged documents and recorded skip entries (both in container order). -/
def pipelineLoop {α : Type} (proc : α → ChanOutcome) : List α → List Document × List String
  | [] => ([], [])
  | x :: rest =>
    let r := pipelineLoop proc rest
    match proc x with
    | ChanOutcome.doc d => (d :: r.1, r.2)
    | ChanOutcome.skip s => (r.1, s :: r.2)
    | ChanOutcome.silent => r

/-- The run report message built after the loop (lines 236-239 and
471-474): `None` when nothing was skipped, otherwise the summary naming
every skipped container with its reason. -/
def mkRunMessage (docCount : Nat) (skipped : List String) (unitName : String) :
    Option String :=
  if skipped.isEmpty then none
  else some ("Indexed " ++ toString docCount ++ " " ++ unitName ++ ". Skipped " ++
    toString skipped.length ++ " " ++ unitName ++ ": " ++
    String.intercalate ", " skipped)

/-- End of a run (lines 228-250 and 462-486): advance the in-memory
watermark when requested and at least one document was staged, then
commit everything in one transaction.  `commitResult = some e` models a
`SQLAlchemyError` raised by `session.commit()`: the session is rolled
back (nothing persisted, watermark untouched) and the run returns the
database-error message. -/
def commitRun (db : DB) (connector_id : Int) (now : Int)
    (update_last_indexed : Bool) (docs : List Document) (skipped : List String)
    (unitName : String) (commitResult : Option String) : (Nat × Option String) × DB :=
  match commitResult with
  | some e => ((0, some ("Database error: " ++ e)), db)
  | none =>
    ((docs.length, mkRunMessage docs.length skipped unitName),
      { connectors :=
          if update_last_indexed = true ∧ 0 < docs.length then
            setWatermark db.connectors connector_id now
          else db.connectors
        documents := db.documents ++ docs })

/-- The early phase of `index_slack_messages`
(connectors_indexing_tasks.py lines 35-83): resolve the connector row,
read the bot token (absent or empty is a config failure), compute the
sync window, and enumerate the channels.  `Except.error` carries the
early-return message of the corresponding `return 0, ...` line; success
yields the channel list with the window date strings. -/
def slackPrepare (db : DB) (connector_id : Int) (env : SlackEnv) (now : Int) :
    Except String (List (String × String) × String × String) :=
  match db.connectors.find? fun c =>
      c.id == connector_id && c.connector_type == ConnType.slack with
  | none =>
    Except.error ("Connector with ID " ++ toString connector_id ++
      " not found or is not a Slack connector")
  | some connector =>
    match connector.config.lookup "SLACK_BOT_TOKEN" with
    | none => Except.error "Slack token not found in connector config"
    | some slack_token =>
      if slack_token = "" then
        Except.error "Slack token not found in connector config"
      else
        let window := slackComputeWindow connector.last_indexed_at now
        match env.channelsResult with
        | Except.error e => Except.error ("Failed to get Slack channels: " ++ e)
        | Except.ok channels =>
          if channels.isEmpty then Except.error "No Slack channels found"
          else Except.ok (channels, dateStr window.1, dateStr window.2)

/-- `index_slack_messages` (connectors_indexing_tasks.py lines 17-250):
the early phase, then the per-channel loop, then the watermark decision
and the single commit.  An early return leaves the database untouched
and reports `(0, message)`. -/
def index_slack_messages (db : DB) (connector_id search_space_id : Int)
    (update_last_indexed : Bool) (env : SlackEnv) (caps : Caps) (now : Int)
    (commitResult : Option String) : (Nat × Option String) × DB :=
  match slackPrepare db connector_id env now with
  | Except.error msg => ((0, some msg), db)
  | Except.ok (channels, start_date_str, end_date_str) =>
    let r := pipelineLoop
      (fun c => processSlackChannel caps env now start_date_str end_date_str
        search_space_id c.1 c.2) channels
    commitRun db connector_id now update_last_indexed r.1 r.2 "channels"
      commitResult

/-- A Notion block: its `type` string, its `content` text (default `""`)
and its `children` list (default `[]`). -/
inductive NBlock where
  | node (btype : String) (content : String) (children : List NBlock)

/-- The `type` field of a block. -/
def NBlock.btype : NBlock → String
  | NBlock.node t _ _ => t

/-- The `content` field of a block. -/
def NBlock.content : NBlock → String
  | NBlock.node _ c _ => c

/-- The `children` field of a block. -/
def NBlock.children : NBlock → List NBlock
  | NBlock.node _ _ ch => ch

/-- The indentation prefix for a nesting level (Python `"  " * level`). -/
def indentOf : Nat → String
  | 0 => ""
  | n + 1 => indentOf n ++ "  "

/-- The block types the renderer recognizes in its `if`/`elif` chain
(connectors_indexing_tasks.py lines 359-382). -/
def recognizedBlockTypes : List String :=
  ["paragraph", "text", "heading_1", "header", "heading_2", "heading_3",
   "bulleted_list_item", "numbered_list_item", "to_do", "toggle", "code",
   "quote", "callout", "image"]

/-- The markdown line produced for one block (the `if`/`elif` chain at
lines 358-386): a recognized type maps to its markdown construct; any
other type falls back to the raw content when non-empty and produces
nothing otherwise. -/
def blockLine (btype content indent : String) : String :=
  if btype = "paragraph" ∨ btype = "text" then indent ++ content ++ "\n\n"
  else if btype = "heading_1" ∨ btype = "header" then indent ++ "# " ++ content ++ "\n\n"
  else if btype = "heading_2" then indent ++ "## " ++ content ++ "\n\n"
  else if btype = "heading_3" then indent ++ "### " ++ content ++ "\n\n"
  else if btype = "bulleted_list_item" then indent ++ "* " ++ content ++ "\n"
  else if btype = "numbered_list_item" then indent ++ "1. " ++ content ++ "\n"
  else if btype = "to_do" then indent ++ "- [ ] " ++ content ++ "\n"
  else if btype = "toggle" then indent ++ "> " ++ content ++ "\n"
  else if btype = "code" then indent ++ "```\n" ++ content ++ "\n```\n\n"
  else if btype = "quote" then indent ++ "> " ++ content ++ "\n\n"
  else if btype = "callout" then indent ++ "> **Note:** " ++ content ++ "\n\n"
  else if btype = "image" then indent ++ "![Image](" ++ content ++ ")\n\n"
  else if content ≠ "" then indent ++ content ++ "\n\n"
  else ""

/-- `process_blocks` (connectors_indexing_tasks.py lines 348-392): render
a list of blocks to markdown, appending each block line and then, when
the block has children, the recursive rendering of the children at the
next indentation level. -/
def process_blocks (blocks : List NBlock) (level : Nat) : String :=
  match blocks with
  | [] => ""
  | NBlock.node btype content children :: rest =>
    blockLine btype content (indentOf level) ++
      (if children.isEmpty then "" else process_blocks children (level + 1)) ++
      process_blocks rest level

/-- One Notion page as returned by `get_all_pages`: its id, title and
content block list (fields read at lines 333-335). -/
structure NPage where
  page_id : String
  title : String
  content : List NBlock

/-- The scripted behaviour of the Notion API for one run: `get_all_pages`
for the given start and end date strings, or a raised exception. -/
structure NotionEnv where
  pagesResult : String → String → Except String (List NPage)

/-- The body of the per-page loop of `index_notion_pages`
(connectors_indexing_tasks.py lines 331-460): skip empty pages with a
reason, otherwise render the blocks to markdown, build the envelope,
summarize, embed, chunk and stage the `Document`; any capability failure
becomes a processing-error skip. -/
def processNotionPage (caps : Caps) (now : Int) (search_space_id : Int)
    (page : NPage) : ChanOutcome :=
  if page.content.isEmpty then
    ChanOutcome.skip (page.title ++ " (no content)")
  else
    let markdown_content := "# Notion Page: " ++ page.title ++ "\n\n" ++
      process_blocks page.content 0
    let combined_document_string := buildDocumentString
      ["PAGE_TITLE: " ++ page.title,
       "PAGE_ID: " ++ page.page_id,
       "INDEXED_AT: " ++ fmtTime now]
      markdown_content
    match caps.summarize combined_document_string with
    | Except.error _ => ChanOutcome.skip (page.title ++ " (processing error)")
    | Except.ok summary_content =>
      match caps.embed summary_content with
      | Except.error _ => ChanOutcome.skip (page.title ++ " (processing error)")
      | Except.ok summary_embedding =>
        match caps.chunkText markdown_content with
        | Except.error _ => ChanOutcome.skip (page.title ++ " (processing error)")
        | Except.ok chunks =>
          ChanOutcome.doc
            { search_space_id := search_space_id
              title := "Notion - " ++ page.title
              document_type := ConnType.notion
              document_metadata :=
                [("page_title", MVal.s page.title),
                 ("page_id", MVal.s page.page_id),
                 ("indexed_at", MVal.s (fmtTime now))]
              content := summary_content
              embedding := summary_embedding
              chunks := chunks }

/-- The early phase of `index_notion_pages`
(connectors_indexing_tasks.py lines 270-324): resolve the connector row,
read the integration token (absent or empty is a config failure),
compute the sync window, and fetch the pages.  `Except.error` carries
the early-return message; success yields the non-empty page list. -/
def notionPrepare (db : DB) (connector_id : Int) (env : NotionEnv) (now : Int) :
    Except String (List NPage) :=
  match db.connectors.find? fun c =>
      c.id == connector_id && c.connector_type == ConnType.notion with
  | none =>
    Except.error ("Connector with ID " ++ toString connector_id ++
      " not found or is not a Notion connector")
  | some connector =>
    match connector.config.lookup "NOTION_INTEGRATION_TOKEN" with
    | none => Except.error "Notion integration token not found in connector config"
    | some notion_token =>
      if notion_token = "" then
        Except.error "Notion integration token not found in connector config"
      else
        let window := notionComputeWindow connector.last_indexed_at now
        match env.pagesResult (dateTimeStr window.1) (dateTimeStr window.2) with
        | Except.error e => Except.error ("Failed to get Notion pages: " ++ e)
        | Except.ok pages =>
          if pages.isEmpty then Except.error "No Notion pages found"
          else Except.ok pages

/-- `index_notion_pages` (connectors_indexing_tasks.py lines 252-486):
the early phase, then the per-page loop, then the watermark decision and
the single commit.  An early return leaves the database untouched and
reports `(0, message)`. -/
def index_notion_pages (db : DB) (connector_id search_space_id : Int)
    (update_last_indexed : Bool) (env : NotionEnv) (caps : Caps) (now : Int)
    (commitResult : Option String) : (Nat × Option String) × DB :=
  match notionPrepare db connector_id env now with
  | Except.error msg => ((0, some msg), db)
  | Except.ok pages =>
    let r := pipelineLoop (processNotionPage caps now search_space_id) pages
    commitRun db connector_id now update_last_indexed r.1 r.2 "pages"
      commitResult

/-- `create_search_source_connector`
(search_source_connectors_routes.py lines 31-83): reject with 409 when
the user already owns a connector of the requested type, otherwise
insert the new row.  The second component is the raised HTTP error, if
any; the first is the stored connector list after the call. -/
def create_search_source_connector (l : List Connector) (user_id : Int)
    (new_id : Int) (ctype : ConnType) (cfg : List (String × String)) :
    List Connector × Option String :=
  match l.find? fun x => x.user_id == user_id && x.connector_type == ctype with
  | some _ =>
    (l, some ("409: A connector with type " ++ reprStr ctype ++ " already exists"))
  | none =>
    (l ++ [{ id := new_id, user_id := user_id, connector_type := ctype,
             config := cfg, last_indexed_at := none }], none)

/-- `update_search_source_connector`
(search_source_connectors_routes.py lines 124-184): `check_ownership`
resolves the connector by id for this user (404 when absent); when the
update changes the connector type, reject with 409 if another connector
of this user already has the new type; otherwise apply the update to the
row. -/
def update_search_source_connector (l : List Connector) (user_id : Int)
    (connector_id : Int) (new_type : ConnType) (new_cfg : List (String × String)) :
    List Connector × Option String :=
  match l.find? fun x => x.id == connector_id && x.user_id == user_id with
  | none => (l, some "404: Connector not found")
  | some db_connector =>
    if new_type != db_connector.connector_type &&
        (l.find? fun x => x.user_id == user_id && x.connector_type == new_type &&
          x.id != connector_id).isSome then
      (l, some ("409: A connector with type " ++ reprStr new_type ++ " already exists"))
    else
      (l.map fun x =>
        if x.id == connector_id then
          { x with connector_type := new_type, config := new_cfg }
        else x, none)

/-- `update_connector_last_indexed`
(search_source_connectors_routes.py lines 341-365): look the connector up
by id and set its `last_indexed_at` to now. -/
def update_connector_last_indexed (l : List Connector) (connector_id : Int)
    (now : Int) : List Connector :=
  match l.find? fun c => c.id == connector_id with
  | none => l
  | some _ => setWatermark l connector_id now

/-- Modelled from the spec: `index_github_repos` is imported by the
routes module but absent from the source sample.  Per the specification
a pipeline run that completes but finds nothing new reports zero
documents persisted and no error message. -/
def index_github_repos_emptyRun : Nat × Option String := (0, none)

/-- `run_github_indexing` (search_source_connectors_routes.py lines
462-483), parametrized by the (count, error message) result of
`index_github_repos`: when an error message is present the watermark is
left alone, otherwise `update_connector_last_indexed` advances it -
regardless of how many documents were indexed. -/
def run_github_indexing (l : List Connector) (connector_id : Int)
    (ghResult : Nat × Option String) (now : Int) : List Connector :=
  match ghResult.2 with
  | some _ => l
  | none => update_connector_last_indexed l connector_id now

/-- The per-owner uniqueness invariant: no two distinct stored connector
rows share both owner and provider kind. -/
def uniqueTypesPerUser (l : List Connector) : Prop :=
  l.Pairwise fun a b => a.user_id = b.user_id → a.connector_type ≠ b.connector_type

/-- Distinctness of row ids (a primary-key fact about the stored table). -/
def distinctIds (l : List Connector) : Prop :=
  l.Pairwise fun a b => a.id ≠ b.id

section Helpers

/-- The per-container loop distributes over list append: containers are
processed independently, so both the staged documents and the recorded
skips of a concatenation are the concatenations. -/
theorem pipelineLoop_append {α : Type} (proc : α → ChanOutcome) (xs ys : List α) :
    pipelineLoop proc (xs ++ ys) =
      ((pipelineLoop proc xs).1 ++ (pipelineLoop proc ys).1,
        (pipelineLoop proc xs).2 ++ (pipelineLoop proc ys).2) := by
  induction xs with
  | nil => simp [pipelineLoop]
  | cons x xs ih =>
    simp only [List.cons_append, pipelineLoop]
    cases proc x <;> simp [ih]

/-- The per-container loop on a single skipped container records exactly
that skip entry. -/
theorem pipelineLoop_skip {α : Type} (proc : α → ChanOutcome) (x : α) (s : String)
    (h : proc x = ChanOutcome.skip s) :
    pipelineLoop proc [x] = ([], [s]) := by
  simp [pipelineLoop, h]

/-- When every container is silently passed over (no items after
filtering), the loop stages nothing and records nothing. -/
theorem pipelineLoop_all_silent {α : Type} (proc : α → ChanOutcome) (l : List α)
    (h : ∀ x ∈ l, proc x = ChanOutcome.silent) :
    pipelineLoop proc l = ([], []) := by
  induction l with
  | nil => rfl
  | cons x xs ih =>
    have hx := h x (List.mem_cons_self x xs)
    have hxs := ih fun y hy => h y (List.mem_cons_of_mem x hy)
    simp [pipelineLoop, hx, hxs]

/-- The connector rows after `commitRun` with the update flag set: the
watermark is advanced exactly when the committed document list grew. -/
theorem commitRun_connectors (db : DB) (cid now : Int) (docs : List Document)
    (skipped : List String) (u : String) (cr : Option String) :
    (commitRun db cid now true docs skipped u cr).2.connectors =
      if db.documents.length < (commitRun db cid now true docs skipped u cr).2.documents.length
      then setWatermark db.connectors cid now
      else db.connectors := by
  cases cr with
  | some e => simp [commitRun]
  | none =>
    by_cases h : 0 < docs.length
    · have hlt : db.documents.length < (db.documents ++ docs).length := by
        simp only [List.length_append]; omega
      simp [commitRun, h, hlt]
    · have h0 : docs = [] := List.eq_nil_of_length_eq_zero (by omega)
      subst h0
      simp [commitRun]

/-- A failing final commit returns the database untouched. -/
theorem commitRun_rollback (db : DB) (cid now : Int) (upd : Bool)
    (docs : List Document) (skipped : List String) (u e : String) :
    (commitRun db cid now upd docs skipped u (some e)).2 = db := rfl

end Helpers

section SampleInputs

/-- Deterministic sample capabilities for concrete runs. -/
def sampleCaps : Caps :=
  { summarize := fun _ => Except.ok "SUMMARY"
    embed := fun _ => Except.ok [1]
    chunkText := fun _ => Except.ok [("chunk", [2])] }

/-- A plain user message (no subtype, so it survives filtering). -/
def sampleMsg : SlackMsg :=
  { subtype := none, user_name := "alice", datetime := "t", text := "hi" }

/-- A Slack environment with two accessible channels that both have one
message in the window. -/
def sampleSlackEnv : SlackEnv :=
  { channelsResult := Except.ok [("general", "C1"), ("random", "C2")]
    info := fun _ => InfoResult.ok false false
    history := fun _ _ _ => ([sampleMsg], none) }

/-- A Slack environment with a middle channel whose history fetch
reports an error, between two healthy channels. -/
def isolationSlackEnv : SlackEnv :=
  { channelsResult := Except.ok [("general", "C1"), ("badchan", "C9"), ("random", "C2")]
    info := fun _ => InfoResult.ok false false
    history := fun cid _ _ =>
      if cid = "C9" then ([], some "boom") else ([sampleMsg], none) }

/-- A Slack environment whose channels are accessible but empty. -/
def emptySlackEnv : SlackEnv :=
  { channelsResult := Except.ok [("general", "C1"), ("random", "C2")]
    info := fun _ => InfoResult.ok false false
    history := fun _ _ _ => ([], none) }

/-- A stored Slack connector owned by user 7 with a prior watermark. -/
def sampleConnector : Connector :=
  { id := 1, user_id := 7, connector_type := ConnType.slack,
    config := [("SLACK_BOT_TOKEN", "tok")], last_indexed_at := some 500 }

/-- A database holding just the sample Slack connector. -/
def sampleDB : DB := { connectors := [sampleConnector], documents := [] }

/-- A stored Notion connector owned by user 7, never synced. -/
def notionConnector : Connector :=
  { id := 2, user_id := 7, connector_type := ConnType.notion,
    config := [("NOTION_INTEGRATION_TOKEN", "ntok")], last_indexed_at := none }

/-- A database holding just the sample Notion connector. -/
def notionDB : DB := { connectors := [notionConnector], documents := [] }

/-- A Notion page with zero content blocks. -/
def emptyNPage : NPage := { page_id := "p1", title := "Empty", content := [] }

/-- A Notion environment returning the single empty page. -/
def emptyPageNotionEnv : NotionEnv :=
  { pagesResult := fun _ _ => Except.ok [emptyNPage] }

/-- A stored GitHub connector with a prior watermark. -/
def githubConnector : Connector :=
  { id := 3, user_id := 7, connector_type := ConnType.github,
    config := [], last_indexed_at := some 500 }

end SampleInputs

section C1Claim

/-- C1 counterexample: a GitHub indexing run that persists zero
documents and reports no error (the spec-modelled empty run) still
advances the watermark from 500 to 900, contradicting the claim that
zero persisted documents leave the watermark exactly as it was. -/
theorem c1_counterexample :
    index_github_repos_emptyRun.1 = 0 ∧
    run_github_indexing [githubConnector] 3 index_github_repos_emptyRun 900 =
      [{ githubConnector with last_indexed_at := some 900 }] ∧
    githubConnector.last_indexed_at = some 500 := by
  refine ⟨rfl, ?_, rfl⟩
  rfl

/-- C1 (amended): for Slack and Notion runs with the update flag set the
watermark is advanced to now if and only if at least one document was
durably persisted in the run, and is otherwise left exactly as before;
for GitHub runs the watermark is advanced if and only if the indexer
reports no error message - it advances on any error-free result
regardless of how many documents were persisted, and the connector rows
are left exactly as they were whenever an error message is present. -/
theorem c1_watermark_law :
    (∀ (db : DB) (cid ssid : Int) (env : SlackEnv) (caps : Caps) (now : Int)
        (cr : Option String),
      (index_slack_messages db cid ssid true env caps now cr).2.connectors =
        if db.documents.length <
            (index_slack_messages db cid ssid true env caps now cr).2.documents.length
        then setWatermark db.connectors cid now
        else db.connectors) ∧
    (∀ (db : DB) (cid ssid : Int) (env : NotionEnv) (caps : Caps) (now : Int)
        (cr : Option String),
      (index_notion_pages db cid ssid true env caps now cr).2.connectors =
        if db.documents.length <
            (index_notion_pages db cid ssid true env caps now cr).2.documents.length
        then setWatermark db.connectors cid now
        else db.connectors) ∧
    (∀ (l : List Connector) (cid : Int) (cnt : Nat) (now : Int),
      run_github_indexing l cid (cnt, none) now =
        update_connector_last_indexed l cid now) ∧
    (∀ (l : List Connector) (cid : Int) (cnt : Nat) (e : String) (now : Int),
      run_github_indexing l cid (cnt, some e) now = l) := by
  refine ⟨?_, ?_, fun l cid cnt now => rfl, fun l cid cnt e now => rfl⟩
  · intro db cid ssid env caps now cr
    unfold index_slack_messages
    cases hp : slackPrepare db cid env now with
    | error msg => simp
    | ok r =>
      obtain ⟨channels, sStr, eStr⟩ := r
      exact commitRun_connectors ..
  · intro db cid ssid env caps now cr
    unfold index_notion_pages
    cases hp : notionPrepare db cid env now with
    | error msg => simp
    | ok pages => exact commitRun_connectors ..

end C1Claim

section C2Claim

/-- C2 counterexample: a Slack run over two containers that both
assemble successfully persists both documents when the single final
commit succeeds, but persists zero documents - not the documents of
containers 1..N-1 - when that commit fails: the whole run is one
transaction, not one per container. -/
theorem c2_counterexample :
    (index_slack_messages sampleDB 1 9 true sampleSlackEnv sampleCaps 1000000
        none).2.documents.length = 2 ∧
    (index_slack_messages sampleDB 1 9 true sampleSlackEnv sampleCaps 1000000
        (some "disk full")).2.documents.length = 0 ∧
    (index_slack_messages sampleDB 1 9 true sampleSlackEnv sampleCaps 1000000
        (some "disk full")).2 = sampleDB := by
  refine ⟨rfl, rfl, rfl⟩

/-- C2 (amended): successfully assembled documents are staged during the
run and committed in one storage transaction for the whole run, not one
per container; a persistence failure at that commit rolls back every
document (and the watermark write) of the run, leaving the database
exactly as before, while a successful commit appends all staged
documents at once and reports their count. -/
theorem c2_single_transaction_per_run :
    (∀ (db : DB) (cid ssid : Int) (upd : Bool) (env : SlackEnv) (caps : Caps)
        (now : Int) (e : String),
      (index_slack_messages db cid ssid upd env caps now (some e)).2 = db) ∧
    (∀ (db : DB) (cid ssid : Int) (upd : Bool) (env : NotionEnv) (caps : Caps)
        (now : Int) (e : String),
      (index_notion_pages db cid ssid upd env caps now (some e)).2 = db) ∧
    (∀ (db : DB) (cid ssid : Int) (upd : Bool) (env : SlackEnv) (caps : Caps)
        (now : Int),
      ∃ staged : List Document,
        (index_slack_messages db cid ssid upd env caps now none).2.documents =
          db.documents ++ staged ∧
        (index_slack_messages db cid ssid upd env caps now none).1.1 =
          staged.length) ∧
    (∀ (db : DB) (cid ssid : Int) (upd : Bool) (env : NotionEnv) (caps : Caps)
        (now : Int),
      ∃ staged : List Document,
        (index_notion_pages db cid ssid upd env caps now none).2.documents =
          db.documents ++ staged ∧
        (index_notion_pages db cid ssid upd env caps now none).1.1 =
          staged.length) := by
  refine ⟨?_, ?_, ?_, ?_⟩
  · intro db cid ssid upd env caps now e
    unfold index_slack_messages
    cases hp : slackPrepare db cid env now with
    | error msg => rfl
    | ok r =>
      obtain ⟨channels, sStr, eStr⟩ := r
      exact commitRun_rollback ..
  · intro db cid ssid upd env caps now e
    unfold index_notion_pages
    cases hp : notionPrepare db cid env now with
    | error msg => rfl
    | ok pages => exact commitRun_rollback ..
  · intro db cid ssid upd env caps now
    unfold index_slack_messages
    cases hp : slackPrepare db cid env now with
    | error msg => exact ⟨[], by simp⟩
    | ok r =>
      obtain ⟨channels, sStr, eStr⟩ := r
      exact ⟨(pipelineLoop
          (fun c => processSlackChannel caps env now sStr eStr ssid c.1 c.2)
          channels).1,
        by simp [commitRun], by simp [commitRun]⟩
  · intro db cid ssid upd env caps now
    unfold index_notion_pages
    cases hp : notionPrepare db cid env now with
    | error msg => exact ⟨[], by simp⟩
    | ok pages =>
      exact ⟨(pipelineLoop (processNotionPage caps now ssid) pages).1,
        by simp [commitRun], by simp [commitRun]⟩

end C2Claim

section C4Claim

/-- C4: in a multi-container Slack run, a container whose history fetch
reports an error is turned into a recorded skip naming the channel and
the error, the staged documents are exactly those of the other
containers, and with a successful commit those documents are all
persisted - the failing container never aborts the run. -/
theorem c4_fetch_error_isolation
    (caps : Caps) (env : SlackEnv) (now : Int) (ssid : Int) (db : DB) (cid : Int)
    (upd : Bool) (pre post : List (String × String)) (bad : String × String)
    (ip im : Bool) (msgs : List SlackMsg) (e : String) (sStr eStr : String)
    (hinfo : env.info bad.2 = InfoResult.ok ip im)
    (hmem : (ip && !im) = false)
    (hhist : ∀ s t, env.history bad.2 s t = (msgs, some e))
    (hprep : slackPrepare db cid env now = Except.ok (pre ++ bad :: post, sStr, eStr)) :
    (pipelineLoop (fun c => processSlackChannel caps env now sStr eStr ssid c.1 c.2)
        (pre ++ bad :: post)).1 =
      (pipelineLoop (fun c => processSlackChannel caps env now sStr eStr ssid c.1 c.2)
        pre).1 ++
      (pipelineLoop (fun c => processSlackChannel caps env now sStr eStr ssid c.1 c.2)
        post).1 ∧
    (pipelineLoop (fun c => processSlackChannel caps env now sStr eStr ssid c.1 c.2)
        (pre ++ bad :: post)).2 =
      (pipelineLoop (fun c => processSlackChannel caps env now sStr eStr ssid c.1 c.2)
        pre).2 ++
      (bad.1 ++ " (error: " ++ e ++ ")") ::
      (pipelineLoop (fun c => processSlackChannel caps env now sStr eStr ssid c.1 c.2)
        post).2 ∧
    (index_slack_messages db cid ssid upd env caps now none).2.documents =
      db.documents ++
      ((pipelineLoop (fun c => processSlackChannel caps env now sStr eStr ssid c.1 c.2)
        pre).1 ++
       (pipelineLoop (fun c => processSlackChannel caps env now sStr eStr ssid c.1 c.2)
        post).1) := by
  have hbad : processSlackChannel caps env now sStr eStr ssid bad.1 bad.2 =
      ChanOutcome.skip (bad.1 ++ " (error: " ++ e ++ ")") := by
    unfold processSlackChannel
    rw [hinfo]
    simp only [hmem, Bool.false_eq_true, if_false]
    rw [hhist sStr eStr]
  have hmid : pipelineLoop
      (fun c => processSlackChannel caps env now sStr eStr ssid c.1 c.2)
      (bad :: post) =
      ((pipelineLoop (fun c => processSlackChannel caps env now sStr eStr ssid c.1 c.2)
          post).1,
        (bad.1 ++ " (error: " ++ e ++ ")") ::
        (pipelineLoop (fun c => processSlackChannel caps env now sStr eStr ssid c.1 c.2)
          post).2) := by
    simp [pipelineLoop, hbad]
  have h1 := pipelineLoop_append
    (fun c => processSlackChannel caps env now sStr eStr ssid c.1 c.2) pre (bad :: post)
  rw [hmid] at h1
  refine ⟨by rw [h1], by rw [h1], ?_⟩
  unfold index_slack_messages
  rw [hprep]
  dsimp only
  rw [h1]
  simp [commitRun]

/-- C4 witness: the isolation theorem at a concrete three-channel run
whose middle channel fails its fetch with error `boom`. -/
theorem c4_fetch_error_isolation_witness :
    (pipelineLoop (fun c => processSlackChannel sampleCaps isolationSlackEnv 1000000
        "0" "694" 9 c.1 c.2)
        ([("general", "C1")] ++ ("badchan", "C9") :: [("random", "C2")])).1 =
      (pipelineLoop (fun c => processSlackChannel sampleCaps isolationSlackEnv 1000000
        "0" "694" 9 c.1 c.2) [("general", "C1")]).1 ++
      (pipelineLoop (fun c => processSlackChannel sampleCaps isolationSlackEnv 1000000
        "0" "694" 9 c.1 c.2) [("random", "C2")]).1 ∧
    (pipelineLoop (fun c => processSlackChannel sampleCaps isolationSlackEnv 1000000
        "0" "694" 9 c.1 c.2)
        ([("general", "C1")] ++ ("badchan", "C9") :: [("random", "C2")])).2 =
      (pipelineLoop (fun c => processSlackChannel sampleCaps isolationSlackEnv 1000000
        "0" "694" 9 c.1 c.2) [("general", "C1")]).2 ++
      ("badchan" ++ " (error: " ++ "boom" ++ ")") ::
      (pipelineLoop (fun c => processSlackChannel sampleCaps isolationSlackEnv 1000000
        "0" "694" 9 c.1 c.2) [("random", "C2")]).2 ∧
    (index_slack_messages sampleDB 1 9 true isolationSlackEnv sampleCaps 1000000
        none).2.documents =
      sampleDB.documents ++
      ((pipelineLoop (fun c => processSlackChannel sampleCaps isolationSlackEnv 1000000
        "0" "694" 9 c.1 c.2) [("general", "C1")]).1 ++
       (pipelineLoop (fun c => processSlackChannel sampleCaps isolationSlackEnv 1000000
        "0" "694" 9 c.1 c.2) [("random", "C2")]).1) :=
  c4_fetch_error_isolation sampleCaps isolationSlackEnv 1000000 9 sampleDB 1 true
    [("general", "C1")] [("random", "C2")] ("badchan", "C9") false false [] "boom"
    "0" "694" rfl rfl (fun _ _ => rfl) rfl

end C4Claim

section C5Claim

/-- A Notion page with two paragraph blocks. -/
def twoBlockPage : NPage :=
  { page_id := "p2", title := "Two",
    content := [NBlock.node "paragraph" "a" [], NBlock.node "paragraph" "b" []] }

/-- The document produced for `twoBlockPage` by the sample capabilities. -/
def c5NotionDoc : Document :=
  { search_space_id := 9, title := "Notion - Two", document_type := ConnType.notion,
    document_metadata := [("page_title", MVal.s "Two"), ("page_id", MVal.s "p2"),
      ("indexed_at", MVal.s "1000")],
    content := "SUMMARY", embedding := [1], chunks := [("chunk", [2])] }

/-- The document produced for channel `general` by the sample
capabilities and environment. -/
def c5SlackDoc : Document :=
  { search_space_id := 9, title := "Slack - general", document_type := ConnType.slack,
    document_metadata := [("channel_name", MVal.s "general"), ("channel_id", MVal.s "C1"),
      ("start_date", MVal.s "0"), ("end_date", MVal.s "694"),
      ("message_count", MVal.n 1), ("indexed_at", MVal.s "1000000")],
    content := "SUMMARY", embedding := [1], chunks := [("chunk", [2])] }

/-- C5 counterexample: a Notion page assembled from two blocks yields a
document whose metadata carries the page id and title but no entry at
all for the item count - the claim that the metadata reproduces the
item count fails for the wiki connector. -/
theorem c5_counterexample :
    twoBlockPage.content.length = 2 ∧
    processNotionPage sampleCaps 1000 9 twoBlockPage = ChanOutcome.doc c5NotionDoc ∧
    (∀ kv ∈ c5NotionDoc.document_metadata, kv.2 ≠ MVal.n 2) := by
  refine ⟨rfl, rfl, by decide⟩

/-- C5 (amended): a Slack document's metadata reproduces exactly the
channel name, channel id and filtered message count fed into assembly;
a Notion document's metadata reproduces exactly the page title and page
id fed into assembly, but records no item count. -/
theorem c5_metadata_roundtrip :
    (∀ (caps : Caps) (env : SlackEnv) (now : Int) (sStr eStr : String) (ssid : Int)
        (cname cid : String) (d : Document),
      processSlackChannel caps env now sStr eStr ssid cname cid = ChanOutcome.doc d →
      d.document_metadata =
        [("channel_name", MVal.s cname), ("channel_id", MVal.s cid),
         ("start_date", MVal.s sStr), ("end_date", MVal.s eStr),
         ("message_count",
           MVal.n (((env.history cid sStr eStr).1.filter fun m => !isNoiseSubtype m).length)),
         ("indexed_at", MVal.s (fmtTime now))]) ∧
    (∀ (caps : Caps) (now : Int) (ssid : Int) (page : NPage) (d : Document),
      processNotionPage caps now ssid page = ChanOutcome.doc d →
      d.document_metadata =
        [("page_title", MVal.s page.title), ("page_id", MVal.s page.page_id),
         ("indexed_at", MVal.s (fmtTime now))]) := by
  constructor
  · intro caps env now sStr eStr ssid cname cid d h
    unfold processSlackChannel at h
    dsimp only at h
    split at h
    · split at h <;> exact absurd h (by simp)
    · split at h
      · exact absurd h (by simp)
      · split at h
        · exact absurd h (by simp)
        next messages hhist =>
          split at h
          · exact absurd h (by simp)
          · split at h
            · exact absurd h (by simp)
            · split at h
              · exact absurd h (by simp)
              · split at h
                · exact absurd h (by simp)
                · split at h
                  · exact absurd h (by simp)
                  · obtain rfl := ChanOutcome.doc.inj h
                    rw [hhist]
  · intro caps now ssid page d h
    unfold processNotionPage at h
    dsimp only at h
    split at h
    · exact absurd h (by simp)
    · split at h
      · exact absurd h (by simp)
      · split at h
        · exact absurd h (by simp)
        · split at h
          · exact absurd h (by simp)
          · obtain rfl := ChanOutcome.doc.inj h
            rfl

/-- C5 witness: the round-trip theorem at the concrete sample channel
and the concrete two-block page. -/
theorem c5_metadata_roundtrip_witness :
    (processSlackChannel sampleCaps sampleSlackEnv 1000000 "0" "694" 9 "general" "C1" =
      ChanOutcome.doc c5SlackDoc ∧
     c5SlackDoc.document_metadata =
      [("channel_name", MVal.s "general"), ("channel_id", MVal.s "C1"),
       ("start_date", MVal.s "0"), ("end_date", MVal.s "694"),
       ("message_count", MVal.n 1), ("indexed_at", MVal.s "1000000")]) ∧
    (processNotionPage sampleCaps 1000 9 twoBlockPage = ChanOutcome.doc c5NotionDoc ∧
     c5NotionDoc.document_metadata =
      [("page_title", MVal.s "Two"), ("page_id", MVal.s "p2"),
       ("indexed_at", MVal.s "1000")]) :=
  ⟨⟨rfl, c5_metadata_roundtrip.1 sampleCaps sampleSlackEnv 1000000 "0" "694" 9
      "general" "C1" c5SlackDoc rfl⟩,
   ⟨rfl, c5_metadata_roundtrip.2 sampleCaps 1000 9 twoBlockPage c5NotionDoc rfl⟩⟩

end C5Claim

section C7Claim

/-- C7: a Notion run whose page list is a single page with zero content
blocks completes normally: it returns count zero together with the skip
report naming the page, and leaves the database - documents and
watermark alike - exactly as it was. -/
theorem c7_empty_page_run (db : DB) (cid ssid : Int) (upd : Bool) (env : NotionEnv)
    (caps : Caps) (now : Int) (pg : NPage)
    (hprep : notionPrepare db cid env now = Except.ok [pg])
    (hempty : pg.content = []) :
    index_notion_pages db cid ssid upd env caps now none =
      ((0, mkRunMessage 0 [pg.title ++ " (no content)"] "pages"), db) := by
  have hskip : processNotionPage caps now ssid pg =
      ChanOutcome.skip (pg.title ++ " (no content)") := by
    simp [processNotionPage, hempty]
  unfold index_notion_pages
  rw [hprep]
  dsimp only
  rw [pipelineLoop_skip _ _ _ hskip]
  simp [commitRun]

/-- C7 witness: the empty-page theorem at the concrete never-synced
Notion connector and the concrete empty page. -/
theorem c7_empty_page_run_witness :
    index_notion_pages notionDB 2 9 true emptyPageNotionEnv sampleCaps 1000 none =
      ((0, mkRunMessage 0 ["Empty (no content)"] "pages"), notionDB) :=
  c7_empty_page_run notionDB 2 9 true emptyPageNotionEnv sampleCaps 1000 emptyNPage
    rfl rfl

end C7Claim

section C10Claim

/-- C10 counterexample: a completed Notion run over one page with zero
items persists zero documents but returns a non-null message (the skip
report), not `(0, None)` as the claim asserts for zero-item runs. -/
theorem c10_counterexample :
    (index_notion_pages notionDB 2 9 true emptyPageNotionEnv sampleCaps 1000 none).1 =
      (0, some "Indexed 0 pages. Skipped 1 pages: Empty (no content)") ∧
    some "Indexed 0 pages. Skipped 1 pages: Empty (no content)" ≠
      (none : Option String) := by
  exact ⟨rfl, by simp⟩

/-- Helper: the run report message is non-null exactly when the skip
list is non-empty. -/
theorem mkRunMessage_ne_none (n : Nat) (skipped : List String) (u : String) :
    mkRunMessage n skipped u ≠ none ↔ skipped ≠ [] := by
  cases skipped <;> simp [mkRunMessage]

/-- C10 (amended): for completed Slack and Notion runs the returned
message component is non-null iff at least one container was recorded as
skipped; a Slack run whose channels are all accessible but have no
messages in the window records no skips and returns `(0, none)`,
indistinguishable from a successful empty run - but a Notion run over
item-less pages records each page as skipped and therefore returns a
non-null message. -/
theorem c10_report_message_iff_skipped :
    (∀ (db : DB) (cid ssid : Int) (upd : Bool) (env : SlackEnv) (caps : Caps)
        (now : Int) (channels : List (String × String)) (sStr eStr : String),
      slackPrepare db cid env now = Except.ok (channels, sStr, eStr) →
      ((index_slack_messages db cid ssid upd env caps now none).1.2 ≠ none ↔
        (pipelineLoop (fun c => processSlackChannel caps env now sStr eStr ssid c.1 c.2)
          channels).2 ≠ [])) ∧
    (∀ (db : DB) (cid ssid : Int) (upd : Bool) (env : NotionEnv) (caps : Caps)
        (now : Int) (pages : List NPage),
      notionPrepare db cid env now = Except.ok pages →
      ((index_notion_pages db cid ssid upd env caps now none).1.2 ≠ none ↔
        (pipelineLoop (processNotionPage caps now ssid) pages).2 ≠ [])) ∧
    (∀ (db : DB) (cid ssid : Int) (upd : Bool) (env : SlackEnv) (caps : Caps)
        (now : Int) (channels : List (String × String)) (sStr eStr : String),
      slackPrepare db cid env now = Except.ok (channels, sStr, eStr) →
      (∀ c ∈ channels, env.info c.2 = InfoResult.ok false false ∧
        ∀ s t, env.history c.2 s t = ([], none)) →
      index_slack_messages db cid ssid upd env caps now none = ((0, none), db)) := by
  refine ⟨?_, ?_, ?_⟩
  · intro db cid ssid upd env caps now channels sStr eStr hprep
    unfold index_slack_messages
    rw [hprep]
    dsimp only
    simp only [commitRun]
    exact mkRunMessage_ne_none ..
  · intro db cid ssid upd env caps now pages hprep
    unfold index_notion_pages
    rw [hprep]
    dsimp only
    simp only [commitRun]
    exact mkRunMessage_ne_none ..
  · intro db cid ssid upd env caps now channels sStr eStr hprep hmute
    have hall : ∀ c ∈ channels,
        processSlackChannel caps env now sStr eStr ssid c.1 c.2 = ChanOutcome.silent := by
      intro c hc
      obtain ⟨hi, hh⟩ := hmute c hc
      simp [processSlackChannel, hi, hh]
    unfold index_slack_messages
    rw [hprep]
    dsimp only
    rw [pipelineLoop_all_silent _ _ hall]
    simp [commitRun, mkRunMessage]

/-- C10 witness: the amended theorem at a concrete completed run over
two accessible but empty channels. -/
theorem c10_report_message_iff_skipped_witness :
    ((index_slack_messages sampleDB 1 9 true emptySlackEnv sampleCaps 1000000
        none).1.2 ≠ none ↔
      (pipelineLoop (fun c => processSlackChannel sampleCaps emptySlackEnv 1000000
        "0" "694" 9 c.1 c.2) [("general", "C1"), ("random", "C2")]).2 ≠ []) ∧
    index_slack_messages sampleDB 1 9 true emptySlackEnv sampleCaps 1000000 none =
      ((0, none), sampleDB) :=
  ⟨c10_report_message_iff_skipped.1 sampleDB 1 9 true emptySlackEnv sampleCaps
      1000000 [("general", "C1"), ("random", "C2")] "0" "694" rfl,
   c10_report_message_iff_skipped.2.2 sampleDB 1 9 true emptySlackEnv sampleCaps
      1000000 [("general", "C1"), ("random", "C2")] "0" "694" rfl
      (fun _ _ => ⟨rfl, fun _ _ => rfl⟩)⟩

end C10Claim

section C8Claim

/-- Helper: two pairwise facts about the same list combine pointwise. -/
theorem pairwise_and {α : Type} {R S : α → α → Prop} {l : List α}
    (h1 : l.Pairwise R) (h2 : l.Pairwise S) :
    l.Pairwise fun a b => R a b ∧ S a b := by
  induction l with
  | nil => exact List.Pairwise.nil
  | cons a t ih =>
    rcases List.pairwise_cons.1 h1 with ⟨h1a, h1t⟩
    rcases List.pairwise_cons.1 h2 with ⟨h2a, h2t⟩
    exact List.pairwise_cons.2 ⟨fun b hb => ⟨h1a b hb, h2a b hb⟩, ih h1t h2t⟩

/-- Helper: the ownership/uniqueness relation is symmetric. -/
theorem uniqRel_symm :
    Symmetric fun a b : Connector =>
      a.user_id = b.user_id → a.connector_type ≠ b.connector_type := by
  intro a b h hu ht
  exact h hu.symm ht.symm

/-- Helper: changing the provider type (and config) of the single row
with id `cid` preserves the per-owner uniqueness invariant, provided the
row belongs to user `u` and no other row of `u` already has the new
type. -/
theorem uniqueTypesPerUser_map_update (l : List Connector) (u cid : Int)
    (nt : ConnType) (ncfg : List (String × String))
    (huniq : uniqueTypesPerUser l) (hids : distinctIds l)
    (hu : ∀ x ∈ l, x.id = cid → x.user_id = u)
    (hno : ∀ x ∈ l, x.user_id = u → x.connector_type = nt → x.id = cid) :
    uniqueTypesPerUser (l.map fun x =>
      if x.id == cid then { x with connector_type := nt, config := ncfg } else x) := by
  unfold uniqueTypesPerUser at huniq ⊢
  unfold distinctIds at hids
  rw [List.pairwise_map]
  refine List.Pairwise.imp_of_mem ?_ (pairwise_and huniq hids)
  intro a b ha hb hab
  obtain ⟨hP, hid⟩ := hab
  by_cases hac : a.id = cid
  · have hbc : ¬b.id = cid := fun hbc => hid (hac.trans hbc.symm)
    simp only [hac, beq_self_eq_true, if_true, beq_iff_eq, hbc, if_false]
    intro huser hty
    exact hbc (hno b hb (huser ▸ hu a ha hac) hty.symm)
  · by_cases hbc : b.id = cid
    · simp only [beq_iff_eq, hac, if_false, hbc, beq_self_eq_true, if_true]
      intro huser hty
      exact hac (hno a ha (huser.trans (hu b hb hbc)) hty)
    · simp only [beq_iff_eq, hac, hbc, if_false]
      exact hP

/-- C8: creating a connector of a type the user already owns, or
retyping a connector to a type the user already owns on another row, is
rejected with a 409 conflict and leaves the stored rows unchanged; both
operations preserve the invariant that each user owns at most one
connector of each provider kind. -/
theorem c8_connector_type_uniqueness (l : List Connector) (u nid cid : Int)
    (ct nt : ConnType) (cfg ncfg : List (String × String))
    (huniq : uniqueTypesPerUser l) (hids : distinctIds l) :
    uniqueTypesPerUser (create_search_source_connector l u nid ct cfg).1 ∧
    ((∃ x ∈ l, x.user_id = u ∧ x.connector_type = ct) →
      create_search_source_connector l u nid ct cfg =
        (l, some ("409: A connector with type " ++ reprStr ct ++ " already exists"))) ∧
    uniqueTypesPerUser (update_search_source_connector l u cid nt ncfg).1 ∧
    (∀ cur, l.find? (fun x => x.id == cid && x.user_id == u) = some cur →
      nt ≠ cur.connector_type →
      (∃ x ∈ l, x.user_id = u ∧ x.connector_type = nt ∧ x.id ≠ cid) →
      update_search_source_connector l u cid nt ncfg =
        (l, some ("409: A connector with type " ++ reprStr nt ++ " already exists"))) := by
  refine ⟨?_, ?_, ?_, ?_⟩
  · unfold create_search_source_connector
    cases hf : l.find? fun x => x.user_id == u && x.connector_type == ct with
    | some y => exact huniq
    | none =>
      dsimp only
      unfold uniqueTypesPerUser at huniq ⊢
      rw [List.pairwise_append]
      refine ⟨huniq, by simp, ?_⟩
      intro a ha b hb
      simp only [List.mem_singleton] at hb
      subst hb
      intro huser hty
      have hnone := List.find?_eq_none.1 hf a ha
      simp only [Bool.and_eq_true, beq_iff_eq, not_and] at hnone
      exact hnone huser hty
  · intro hex
    unfold create_search_source_connector
    cases hf : l.find? fun x => x.user_id == u && x.connector_type == ct with
    | some y => rfl
    | none =>
      exfalso
      obtain ⟨x, hx, hxu, hxt⟩ := hex
      have hnone := List.find?_eq_none.1 hf x hx
      simp only [Bool.and_eq_true, beq_iff_eq, not_and] at hnone
      exact hnone hxu hxt
  · unfold update_search_source_connector
    cases hf : l.find? fun x => x.id == cid && x.user_id == u with
    | none => exact huniq
    | some cur =>
      dsimp only
      have hcur := List.find?_some hf
      simp only [Bool.and_eq_true, beq_iff_eq] at hcur
      obtain ⟨hcid, hcu⟩ := hcur
      have hmem := List.mem_of_find?_eq_some hf
      have hidsym : Symmetric fun a b : Connector => a.id ≠ b.id :=
        fun a b h => h.symm
      have hu : ∀ x ∈ l, x.id = cid → x.user_id = u := by
        intro x hx hxid
        by_cases hxc : x = cur
        · subst hxc; exact hcu
        · exact absurd (hxid.trans hcid.symm)
            ((List.Pairwise.forall hidsym hids) hx hmem hxc)
      by_cases hcond : (nt != cur.connector_type &&
          (l.find? fun x =>
            x.user_id == u && x.connector_type == nt && x.id != cid).isSome) = true
      · rw [if_pos hcond]
        exact huniq
      · rw [if_neg hcond]
        have hno : ∀ x ∈ l, x.user_id = u → x.connector_type = nt → x.id = cid := by
          intro x hx hxu hxt
          by_cases hnt : nt = cur.connector_type
          · by_cases hxc : x = cur
            · subst hxc; exact hcid
            · exact absurd (hxt.trans hnt)
                ((List.Pairwise.forall uniqRel_symm huniq) hx hmem hxc
                  (hxu.trans hcu.symm))
          · have hbne : (nt != cur.connector_type) = true := bne_iff_ne.2 hnt
            rw [hbne, Bool.true_and] at hcond
            by_contra hxcid
            apply hcond
            rw [List.find?_isSome]
            exact ⟨x, hx, by simp [hxu, hxt, hxcid]⟩
        exact uniqueTypesPerUser_map_update l u cid nt ncfg huniq hids hu hno
  · intro cur hf hnt hex
    unfold update_search_source_connector
    rw [hf]
    dsimp only
    have hcondT : (nt != cur.connector_type &&
        (l.find? fun x =>
          x.user_id == u && x.connector_type == nt && x.id != cid).isSome) = true := by
      rw [Bool.and_eq_true]
      refine ⟨bne_iff_ne.2 hnt, ?_⟩
      rw [List.find?_isSome]
      obtain ⟨x, hx, h1, h2, h3⟩ := hex
      exact ⟨x, hx, by simp [h1, h2, h3]⟩
    rw [if_pos hcondT]

/-- C8 witness: the uniqueness theorem at a concrete store holding one
Slack and one Notion connector of user 7: a second Slack create is
rejected, and retyping the Notion connector to Slack is rejected, both
leaving the store unchanged. -/
theorem c8_connector_type_uniqueness_witness :
    uniqueTypesPerUser
      (create_search_source_connector [sampleConnector, notionConnector] 7 10
        ConnType.slack []).1 ∧
    create_search_source_connector [sampleConnector, notionConnector] 7 10
        ConnType.slack [] =
      ([sampleConnector, notionConnector],
        some ("409: A connector with type " ++ reprStr ConnType.slack ++
          " already exists")) ∧
    uniqueTypesPerUser
      (update_search_source_connector [sampleConnector, notionConnector] 7 2
        ConnType.slack []).1 ∧
    update_search_source_connector [sampleConnector, notionConnector] 7 2
        ConnType.slack [] =
      ([sampleConnector, notionConnector],
        some ("409: A connector with type " ++ reprStr ConnType.slack ++
          " already exists")) := by
  have h := c8_connector_type_uniqueness [sampleConnector, notionConnector] 7 10 2
    ConnType.slack ConnType.slack [] []
    (by unfold uniqueTypesPerUser; decide) (by unfold distinctIds; decide)
  exact ⟨h.1, h.2.1 (by decide), h.2.2.1,
    h.2.2.2 notionConnector (by decide) (by decide) (by decide)⟩

end C8Claim

section C9Claim

/-- C9: the recursive block renderer is total (its recursive definition
is accepted with a termination certificate, so it returns a string on
every finite block tree); on a non-empty block list it emits the head
block's line at the current indentation, descends only into the head's
children list at indentation level + 1, and then continues with the
remaining blocks at the same level; one more nesting level appends
exactly one two-space indent unit; and a block of unrecognized type
renders as its raw content when that content is non-empty and
contributes nothing otherwise. -/
theorem c9_process_blocks_rendering (t c : String) (ch rest : List NBlock)
    (lvl : Nat) (hunrec : t ∉ recognizedBlockTypes) :
    process_blocks (NBlock.node t c ch :: rest) lvl =
      blockLine t c (indentOf lvl) ++
        (if ch.isEmpty then "" else process_blocks ch (lvl + 1)) ++
        process_blocks rest lvl ∧
    blockLine t c (indentOf lvl) =
      (if c = "" then "" else indentOf lvl ++ c ++ "\n\n") ∧
    indentOf (lvl + 1) = indentOf lvl ++ "  " := by
  refine ⟨?_, ?_, rfl⟩
  · rw [process_blocks]
  · simp only [recognizedBlockTypes, List.mem_cons, List.not_mem_nil, or_false,
      not_or] at hunrec
    obtain ⟨h1, h2, h3, h4, h5, h6, h7, h8, h9, h10, h11, h12, h13, h14⟩ := hunrec
    simp only [blockLine, h1, h2, h3, h4, h5, h6, h7, h8, h9, h10, h11, h12, h13, h14,
      or_self, if_false, ne_eq, ite_not]

/-- C9 witness: the rendering theorem at a concrete unrecognized block
with one paragraph child. -/
theorem c9_process_blocks_rendering_witness :
    process_blocks [NBlock.node "mystery" "x" [NBlock.node "paragraph" "y" []]] 1 =
      blockLine "mystery" "x" (indentOf 1) ++
        (if ([NBlock.node "paragraph" "y" []] : List NBlock).isEmpty then ""
         else process_blocks [NBlock.node "paragraph" "y" []] 2) ++
      process_blocks [] 1 ∧
    blockLine "mystery" "x" (indentOf 1) =
      (if ("x" : String) = "" then "" else indentOf 1 ++ "x" ++ "\n\n") ∧
    indentOf 2 = indentOf 1 ++ "  " :=
  c9_process_blocks_rendering "mystery" "x" [NBlock.node "paragraph" "y" []] [] 1
    (by decide)

end C9Claim
